import Mathlib

/-!
Verification of the `nbainjuries` parsing module (`src/nbainjuries/_parser.py`).

The module has three operations:

* `validate_injrepurl` — HTTP GET of the report PDF through a
  `requests.Session` with a `urllib3.util.retry.Retry` policy mounted on the
  `https://` scheme;
* `extract_injrepurl` — remote pipeline: download to a named temporary file,
  probe the page count, extract the header page and continuation pages with
  `tabula.read_pdf`, validate headers, concatenate and clean, deleting the
  temporary file in a `finally` block;
* `extract_injreplocal` — local pipeline: probe the page count of the caller's
  file, then the same extraction sequence without any temporary file.

The embedding below reproduces the module's control flow as pure Lean
functions.  External collaborators (the HTTP transport, `PyPDF2`,
`tabula.read_pdf`, and the helper functions `_validate_headers`,
`__concat_injreppgs`, `__clean_injrep`, `_pagect_localpdf` that live outside
the given sources) are modelled as oracle inputs: an environment record says
what each external call would return, and the embedding records, in an event
trace, every externally visible action the module performs, in program order.
Theorems then quantify over all oracle behaviours.
-/

namespace NBAInjuries

/-- A page-geometry component (a rectangular `area` or a `columns` boundary
list as passed to `tabula.read_pdf`).  The module never inspects these values,
it only threads them through, so they are kept as opaque lists of numbers. -/
abbrev Geom := List Int

/-- The byte source handed to an extraction call: the downloaded temporary
file (remote pipeline) or the caller's own file (local pipeline). -/
inductive ByteSource where
  | tmpFile
  | callerFile (path : String)
  deriving DecidableEq, Repr

/-- The page selector of a `tabula.read_pdf` call: `pages=1` for the header
page, `pages="2-N"` for the continuation pages. -/
inductive PageSel where
  | headOnly
  | range (lo hi : Nat)
  deriving DecidableEq, Repr

/-- Externally visible actions of one pipeline invocation, in program order.
`tabulaCall` records the byte source, page selector, geometry and whether
pandas header inference is enabled (`read_pdf` default) or disabled
(`pandas_options={"header": None}`). -/
inductive Event where
  | httpGet (url : String) (hdrs : List (String × String)) (streamed : Bool)
      (connectTimeout readTimeout : Nat)
  | tempCreate
  | pdfOpen
  | pagectProbe (path : String)
  | tabulaCall (src : ByteSource) (pages : PageSel) (area cols : Geom)
      (headerInference : Bool)
  | validateHeadersCall
  | tempDelete
  deriving DecidableEq, Repr

/-! ## HTTP session, adapters and retry policy (lines 16–49) -/

/-- The configuration of a `urllib3.util.retry.Retry` object: `total` retries
allowed, backoff factor, the statuses that force a retry, and the methods the
policy applies to. -/
structure RetryConfig where
  total : Nat
  backoff_factor : Rat
  status_forcelist : List Nat
  allowed_methods : List String
  deriving DecidableEq, Repr

/-- The `Retry` object built at lines 22–27:
`Retry(total=5, backoff_factor=1.5, status_forcelist=[429,500,502,503,504],
allowed_methods=["GET"])`. -/
def codeRetries : RetryConfig :=
  { total := 5
    backoff_factor := 3 / 2
    status_forcelist := [429, 500, 502, 503, 504]
    allowed_methods := ["GET"] }

/-- The retry configuration of a default `requests.HTTPAdapter`
(`max_retries=0`): no retries at the adapter level, a single attempt. -/
def zeroRetries : RetryConfig :=
  { total := 0, backoff_factor := 0, status_forcelist := [], allowed_methods := [] }

/-- A `requests.Session` freshly constructed mounts default adapters for the
`https://` and `http://` schemes (in that order, longest key first). -/
def defaultSessionAdapters : List (String × RetryConfig) :=
  [("https://", zeroRetries), ("http://", zeroRetries)]

/-- Model of `Session.mount(key, adapter)`: replace any adapter registered at `key`
with the new one. -/
def mountAdapter (ads : List (String × RetryConfig)) (key : String)
    (cfg : RetryConfig) : List (String × RetryConfig) :=
  (ads.filter fun p => p.1 ≠ key) ++ [(key, cfg)]

/-- The session's adapter registry after line 29:
`session.mount("https://", HTTPAdapter(max_retries=retries))`. -/
def sessionAdapters : List (String × RetryConfig) :=
  mountAdapter defaultSessionAdapters "https://" codeRetries

/-- Of the adapters whose key the URL starts with, the one with the longest
key (`Session.get_adapter` iterates keys sorted by descending length). -/
def longestMatch : List (String × RetryConfig) → Option (String × RetryConfig)
  | [] => none
  | p :: ps =>
    match longestMatch ps with
    | none => some p
    | some q => if p.1.length < q.1.length then some q else some p

/-- Model of `url.startswith(key)` on the underlying character sequences. -/
def strStarts (s pre : String) : Bool :=
  pre.data.isPrefixOf s.data

/-- Model of `Session.get_adapter(url)`: the mounted adapter whose key matches the
start of the URL; `none` models the `InvalidSchema` failure when no adapter
matches. -/
def get_adapter (ads : List (String × RetryConfig)) (url : String) :
    Option RetryConfig :=
  (longestMatch (ads.filter fun p => strStarts url p.1)).map (·.2)

/-- Whether a response status forces a retry under a `Retry` configuration:
the method must be in `allowed_methods` and the status in `status_forcelist`. -/
def statusForcesRetry (cfg : RetryConfig) (method : String) (status : Nat) :
    Bool :=
  cfg.allowed_methods.contains method && cfg.status_forcelist.contains status

/-- The urllib3 retry loop driven by a `Retry` configuration: `transport n` is
the status code of the `n`-th request (0-based).  `Retry.total` counts
*retries*: each response whose status forces a retry decrements the budget,
and the request is re-issued while the budget has not gone below zero, so a
configuration with `total = t` issues at most `t + 1` requests.  Returns the
number of requests issued, paired with `some status` when a response is
handed back to the caller and `none` when `MaxRetryError` is raised. -/
def retryLoop (transport : Nat → Nat) (cfg : RetryConfig) (method : String) :
    Nat → Nat → Nat × Option Nat
  | budget, attempt =>
    let status := transport attempt
    if statusForcesRetry cfg method status then
      match budget with
      | 0 => (attempt + 1, none)
      | b + 1 => retryLoop transport cfg method b (attempt + 1)
    else (attempt + 1, some status)

/-- One adapter-level send: run the retry loop with the configuration's full
budget. -/
def retryRun (transport : Nat → Nat) (cfg : RetryConfig) (method : String) :
    Nat × Option Nat :=
  retryLoop transport cfg method cfg.total 0

/-! ## `validate_injrepurl` (lines 16–49) -/

/-- The outcome at the transport layer of `session.get`: an exception
(`requests.exceptions.RequestException`, which includes connection failures
and exhausted retries), or a response with a final status code. -/
inductive TransportResult where
  | exn (cause : String)
  | resp (status : Nat)
  deriving DecidableEq, Repr

/-- The cause wrapped into `URLRetrievalError`: the transport-level exception,
or the `HTTPError` raised by `resp.raise_for_status()` for a status code. -/
inductive FailCause where
  | transport (cause : String)
  | httpStatus (status : Nat)
  deriving DecidableEq, Repr

/-- Result of `validate_injrepurl`: a validated response, or
`URLRetrievalError(filepath, cause)`. -/
inductive ValidateResult where
  | ok (status : Nat)
  | urlError (location : String) (cause : FailCause)
  deriving DecidableEq, Repr

/-- The method `requests.Response.raise_for_status` raises `HTTPError` exactly for
client-error (4xx) and server-error (5xx) status codes. -/
def raiseForStatusRaises (status : Nat) : Bool :=
  400 ≤ status && status < 600

/-- A 2xx (success) status code. -/
def is2xx (status : Nat) : Bool :=
  200 ≤ status && status < 300

/-- The default request headers built at lines 31–38: a browser-identifying
user agent and `Accept: application/pdf`. -/
def defaultHeaders : List (String × String) :=
  [("User-Agent",
      "Mozilla/5.0 (Windows NT 10.0; Win64; x64) " ++
      "AppleWebKit/537.36 (KHTML, like Gecko) " ++
      "Chrome/120.0.0.0 Safari/537.36"),
   ("Accept", "application/pdf")]

/-- Python `dict.__setitem__` on an association list with unique keys: the
first entry with the key takes the new value in place; an absent key is
appended at the end. -/
def setItem : List (String × String) → String → String → List (String × String)
  | [], k, v => [(k, v)]
  | p :: ps, k, v => if p.1 = k then (k, v) :: ps else p :: setItem ps k v

/-- Python `dict.update` on association lists: apply `setItem` for each
override entry in order. -/
def dictUpdate (base ov : List (String × String)) : List (String × String) :=
  ov.foldl (fun d q => setItem d q.1 q.2) base

/-- Dictionary lookup on an association list: the first entry with the key. -/
def lookupKey : List (String × String) → String → Option String
  | [], _ => none
  | p :: ps, k => if p.1 = k then some p.2 else lookupKey ps k

/-- The keys of an association list are pairwise distinct (always true of a
list that models a Python dict). -/
def KeysNodup (l : List (String × String)) : Prop :=
  (l.map Prod.fst).Nodup

/-- The oracle for one `validate_injrepurl` call: what the mounted session's
`get` would do for the given URL. -/
structure HttpEnv where
  transport : TransportResult
  deriving DecidableEq, Repr

/-- Lines 16–49.  Build the default headers, update them with the
caller-supplied `headers` kwarg, issue `session.get(filepath, headers=...,
stream=True, timeout=(5, 60))`, call `raise_for_status`, and wrap any
`RequestException` into `URLRetrievalError(filepath, cause)`. -/
def validate_injrepurl (env : HttpEnv) (filepath : String)
    (kwargsHeaders : List (String × String)) :
    ValidateResult × List Event :=
  let hdrs := dictUpdate defaultHeaders kwargsHeaders
  let evs : List Event := [.httpGet filepath hdrs true 5 60]
  match env.transport with
  | .exn cause => (.urlError filepath (.transport cause), evs)
  | .resp status =>
    if raiseForStatusRaises status then
      (.urlError filepath (.httpStatus status), evs)
    else
      (.ok status, evs)

/-! ## The extraction pipelines (lines 53–151) -/

/-- The filesystem failures that `extract_injreplocal` catches around the
page-count probe: Python's `FileNotFoundError` and `PermissionError`. -/
inductive FsErr where
  | fileNotFound (msg : String)
  | permissionDenied (msg : String)
  deriving DecidableEq, Repr

/-- Errors a pipeline invocation can raise.  `streamError` stands for any
exception escaping the body-download loop at lines 70–74
(`resp.iter_content` or `tmp.write`), which runs after the temporary file is
created and before the `try`/`finally` is entered, so it propagates unwrapped
and uncovered by cleanup; `tabulaError` stands for any exception escaping a
`tabula.read_pdf` call, `pdfReadError` for an exception from
`PyPDF2.PdfReader`, `emptyHead` for the `IndexError` of `dfs_headpg[0]` on an
empty fragment list, `schemaError` for the failure of `_validate_headers`,
and `cleanError` for any exception from `__concat_injreppgs` or
`__clean_injrep`. -/
inductive PipelineError where
  | urlError (location : String) (cause : FailCause)
  | localError (path : String) (cause : FsErr)
  | streamError (msg : String)
  | pdfReadError (msg : String)
  | tabulaError (msg : String)
  | emptyHead
  | schemaError
  | cleanError
  deriving DecidableEq, Repr

/-- An extracted tabular fragment, kept opaque (the module never looks inside
a fragment itself; the helpers that do are outside the given sources). -/
abbrev Frag := Nat

/-- Modelled from the spec: `__concat_injreppgs` and `__clean_injrep`
(FragmentReconciler and RecordNormalizer) are not among the given sources, so
the cleaned output is modelled as the pair of fragment lists the pipeline
hands to `__concat_injreppgs`, and the oracle field `concatCleanOk` says
whether those helpers succeed. -/
structure PipeOutput where
  headFrags : List Frag
  otherFrags : List Frag
  deriving DecidableEq, Repr

/-- Lines 80–83 and 131–134: each continuation-geometry component defaults,
independently, to the corresponding header-page component when the caller
passed `None`. -/
def resolveContGeom (area_headpg cols_headpg : Geom)
    (area_otherpgs cols_otherpgs : Option Geom) : Geom × Geom :=
  let area := match area_otherpgs with
    | none => area_headpg
    | some a => a
  let cols := match cols_otherpgs with
    | none => cols_headpg
    | some c => c
  (area, cols)

/-- The oracle for the collaborators `extract_injrepurl` uses after the GET:
whether the streamed download of the body into the temporary file
(`resp.iter_content` / `tmp.write`, lines 72–74) completes or raises
mid-stream, whether `PyPDF2.PdfReader` succeeds and the page count it
reports, what each `tabula.read_pdf` call returns (a fragment list, or an
exception), whether `_validate_headers` accepts the first header fragment,
and whether the concatenation/cleaning helpers succeed. -/
structure PdfEnv where
  streamBody : Except String Unit
  pdfRead : Except String Nat
  tabulaHead : Except String (List Frag)
  tabulaOther : Except String (List Frag)
  headersOk : Bool
  concatCleanOk : Bool
  deriving Repr

/-- The `try` block of `extract_injrepurl`, lines 76–112: open the PDF, count
pages, resolve the continuation geometry, extract page 1 with header
inference, validate headers, extract pages `2-N` (header inference disabled)
only when the page count is at least 2, then concatenate and clean. -/
def injrepBody (env : PdfEnv) (src : ByteSource)
    (area_headpg cols_headpg : Geom)
    (area_otherpgs cols_otherpgs : Option Geom) :
    Except PipelineError PipeOutput × List Event :=
  match env.pdfRead with
  | .error m => (.error (.pdfReadError m), [.pdfOpen])
  | .ok pdf_numpgs =>
    let (area_o, cols_o) :=
      resolveContGeom area_headpg cols_headpg area_otherpgs cols_otherpgs
    let evs1 : List Event :=
      [.pdfOpen, .tabulaCall src .headOnly area_headpg cols_headpg true]
    match env.tabulaHead with
    | .error m => (.error (.tabulaError m), evs1)
    | .ok dfs_headpg =>
      match dfs_headpg with
      | [] => (.error .emptyHead, evs1)
      | _ :: _ =>
        let evs2 := evs1 ++ [.validateHeadersCall]
        if env.headersOk then
          if 2 ≤ pdf_numpgs then
            let evs3 := evs2 ++
              [.tabulaCall src (.range 2 pdf_numpgs) area_o cols_o false]
            match env.tabulaOther with
            | .error m => (.error (.tabulaError m), evs3)
            | .ok dfs_otherpgs =>
              if env.concatCleanOk then
                (.ok ⟨dfs_headpg, dfs_otherpgs⟩, evs3)
              else (.error .cleanError, evs3)
          else
            if env.concatCleanOk then
              (.ok ⟨dfs_headpg, []⟩, evs2)
            else (.error .cleanError, evs2)
        else (.error .schemaError, evs2)

/-- Lines 53–119, `extract_injrepurl`: validate and download the URL.  On a
successful GET, the `with tempfile.NamedTemporaryFile(delete=False)` block at
lines 70–74 creates the temporary file and streams the body into it *before*
the `try` at line 76 is entered, so an exception raised by
`resp.iter_content` or `tmp.write` propagates with the temporary file left on
disk — the `finally` at lines 114–119 never runs on that path.  Only once
streaming completes does the extraction body run under `try`/`finally`, with
the temporary file deleted on every exit from the body (the `unlink` is
best-effort: its own failures are suppressed so they never mask the primary
outcome). -/
def extract_injrepurl (henv : HttpEnv) (penv : PdfEnv) (filepath : String)
    (area_headpg cols_headpg : Geom)
    (area_otherpgs cols_otherpgs : Option Geom)
    (kwargsHeaders : List (String × String)) :
    Except PipelineError PipeOutput × List Event :=
  match validate_injrepurl henv filepath kwargsHeaders with
  | (.urlError loc cause, evs) => (.error (.urlError loc cause), evs)
  | (.ok _, evs) =>
    match penv.streamBody with
    | .error m => (.error (.streamError m), evs ++ [.tempCreate])
    | .ok _ =>
      let (r, bodyEvs) :=
        injrepBody penv .tmpFile area_headpg cols_headpg area_otherpgs
          cols_otherpgs
      (r, evs ++ [.tempCreate] ++ bodyEvs ++ [.tempDelete])

/-- The oracle for the collaborators of `extract_injreplocal`:
what `_pagect_localpdf` returns (modelled from the spec, its source not being
among the given files: it probes the page count and can fail with a missing
file or a permission failure), what each `tabula.read_pdf` call returns,
whether `_validate_headers` accepts the header fragment, and whether the
concatenation/cleaning helpers succeed. -/
structure LocalEnv where
  pagect : Except FsErr Nat
  tabulaHead : Except String (List Frag)
  tabulaOther : Except String (List Frag)
  headersOk : Bool
  concatCleanOk : Bool
  deriving Repr

/-- Lines 123–151, `extract_injreplocal`: probe the page count of the
caller's file, wrapping `FileNotFoundError` and `PermissionError` into
`LocalRetrievalError(filepath, cause)`; then resolve the continuation
geometry, extract page 1 with header inference, validate headers, extract
pages `2-N` (header inference disabled) only when the page count is at least
2, and concatenate and clean.  No temporary file is involved. -/
def extract_injreplocal (env : LocalEnv) (filepath : String)
    (area_headpg cols_headpg : Geom)
    (area_otherpgs cols_otherpgs : Option Geom) :
    Except PipelineError PipeOutput × List Event :=
  match env.pagect with
  | .error e => (.error (.localError filepath e), [.pagectProbe filepath])
  | .ok pdf_numpgs =>
    let (area_o, cols_o) :=
      resolveContGeom area_headpg cols_headpg area_otherpgs cols_otherpgs
    let evs1 : List Event :=
      [.pagectProbe filepath,
       .tabulaCall (.callerFile filepath) .headOnly area_headpg cols_headpg
         true]
    match env.tabulaHead with
    | .error m => (.error (.tabulaError m), evs1)
    | .ok dfs_headpg =>
      match dfs_headpg with
      | [] => (.error .emptyHead, evs1)
      | _ :: _ =>
        let evs2 := evs1 ++ [.validateHeadersCall]
        if env.headersOk then
          if 2 ≤ pdf_numpgs then
            let evs3 := evs2 ++
              [.tabulaCall (.callerFile filepath) (.range 2 pdf_numpgs)
                 area_o cols_o false]
            match env.tabulaOther with
            | .error m => (.error (.tabulaError m), evs3)
            | .ok dfs_otherpgs =>
              if env.concatCleanOk then
                (.ok ⟨dfs_headpg, dfs_otherpgs⟩, evs3)
              else (.error .cleanError, evs3)
          else
            if env.concatCleanOk then
              (.ok ⟨dfs_headpg, []⟩, evs2)
            else (.error .cleanError, evs2)
        else (.error .schemaError, evs2)

/-! ## Trace observations -/

/-- One step of the temporary-file state: created by `tempCreate`, removed by
`tempDelete`, untouched by anything else. -/
def tempStep (st : Bool) : Event → Bool
  | .tempCreate => true
  | .tempDelete => false
  | _ => st

/-- Whether the temporary file exists after the trace (initially absent). -/
def tempAfter (evs : List Event) : Bool :=
  evs.foldl tempStep false

/-- An extraction call directed at the continuation pages. -/
def isContCall : Event → Bool
  | .tabulaCall _ (.range _ _) _ _ _ => true
  | _ => false

/-- The header-validation event. -/
def isValidateCall : Event → Bool
  | .validateHeadersCall => true
  | _ => false

/-- The geometry `(area, cols)` of every continuation-page extraction call in
a trace. -/
def contGeoms (evs : List Event) : List (Geom × Geom) :=
  evs.filterMap fun e =>
    match e with
    | .tabulaCall _ (.range _ _) area cols _ => some (area, cols)
    | _ => none

/-- The page selector of every continuation-page extraction call in a
trace. -/
def contSelectors (evs : List Event) : List PageSel :=
  evs.filterMap fun e =>
    match e with
    | .tabulaCall _ (.range lo hi) _ _ _ => some (.range lo hi)
    | _ => none

/-- Header inference is requested exactly where it should be: enabled on the
header-page call, disabled on every continuation-page call. -/
def headerInferenceOk : Event → Bool
  | .tabulaCall _ .headOnly _ _ b => b
  | .tabulaCall _ (.range _ _) _ _ b => !b
  | _ => true

/-- An event that is harmless to the filesystem state at `path`: either it
touches no file at all (`validateHeadersCall`), or it is a pure read of the
caller's file at `path`.  Temporary-file events, downloads and reads of other
paths do not qualify. -/
def readOnlyOnPath (path : String) : Event → Bool
  | .pagectProbe p => p = path
  | .tabulaCall (.callerFile p) _ _ _ _ => p = path
  | .validateHeadersCall => true
  | _ => false

/-- The index of the first event satisfying a predicate. -/
def firstIdx (p : Event → Bool) : List Event → Option Nat
  | [] => none
  | e :: es => if p e then some 0 else (firstIdx p es).map (· + 1)

/-- Every occurrence of a `q`-event in the trace comes strictly after the
first `p`-event. -/
def FirstAfter (p q : Event → Bool) (evs : List Event) : Prop :=
  ∀ j, firstIdx q evs = some j →
    ∃ i, firstIdx p evs = some i ∧ i < j

/-! ## Concrete oracle behaviours used to instantiate the theorems -/

/-- A transport that answers with a plain 200 response. -/
def okHttp : HttpEnv := ⟨.resp 200⟩

/-- PDF-side collaborators that all succeed, on a document of `n` pages. -/
def okPdf (n : Nat) : PdfEnv :=
  { streamBody := .ok (), pdfRead := .ok n, tabulaHead := .ok [0]
    tabulaOther := .ok [1], headersOk := true, concatCleanOk := true }

/-- PDF-side collaborators whose streamed download raises mid-body (the
stalled-connection scenario the module's own docstring warns about), after
the temporary file has been created. -/
def stallPdf : PdfEnv :=
  { streamBody := .error "connection stalled mid-body", pdfRead := .ok 2
    tabulaHead := .ok [0], tabulaOther := .ok [1], headersOk := true
    concatCleanOk := true }

/-- Local collaborators that all succeed, on a document of `n` pages. -/
def okLocal (n : Nat) : LocalEnv :=
  { pagect := .ok n, tabulaHead := .ok [0], tabulaOther := .ok [1]
    headersOk := true, concatCleanOk := true }

/-- Local collaborators whose page-count probe fails with a missing file. -/
def missingLocal : LocalEnv :=
  { pagect := .error (.fileNotFound "no such file"), tabulaHead := .ok [0]
    tabulaOther := .ok [1], headersOk := true, concatCleanOk := true }

/-- PDF collaborators on a three-page document whose header validation
fails. -/
def badHeadPdf : PdfEnv :=
  { streamBody := .ok (), pdfRead := .ok 3, tabulaHead := .ok [0]
    tabulaOther := .ok [1], headersOk := false, concatCleanOk := true }

/-- Local collaborators on a three-page document whose header validation
fails. -/
def badHeadLocal : LocalEnv :=
  { pagect := .ok 3, tabulaHead := .ok [0], tabulaOther := .ok [1]
    headersOk := false, concatCleanOk := true }

/-! ## Helper lemmas -/

/-- A trace ending in `tempDelete` leaves the temporary file absent, whatever
came before. -/
theorem foldl_tempStep_delete (b : Bool) (xs : List Event) :
    (xs ++ [Event.tempDelete]).foldl tempStep b = false := by
  rw [List.foldl_append]
  rfl

/-- Every event emitted by the shared extraction body satisfies `P` provided
`P` holds of the four event shapes the body can emit. -/
theorem injrepBody_all (P : Event → Bool) (penv : PdfEnv) (src : ByteSource)
    (ah ch : Geom) (ao co : Option Geom)
    (hOpen : P .pdfOpen = true)
    (hHead : ∀ a c, P (.tabulaCall src .headOnly a c true) = true)
    (hVal : P .validateHeadersCall = true)
    (hCont : ∀ lo hi a c, P (.tabulaCall src (.range lo hi) a c false) = true) :
    (injrepBody penv src ah ch ao co).2.all P = true := by
  obtain ⟨sb, pr, th, tOth, ho, cc⟩ := penv
  rcases pr with m | n
  · simp [injrepBody, hOpen]
  · rcases th with m | l
    · simp [injrepBody, hOpen, hHead]
    · rcases l with _ | ⟨f, fs⟩
      · simp [injrepBody, hOpen, hHead]
      · rcases ho with _ | _
        · simp [injrepBody, hOpen, hHead, hVal]
        · by_cases hn : 2 ≤ n
          · rcases tOth with m | l2
            · simp [injrepBody, hn, hOpen, hHead, hVal, hCont]
            · rcases cc with _ | _ <;>
                simp [injrepBody, hn, hOpen, hHead, hVal, hCont]
          · rcases cc with _ | _ <;>
              simp [injrepBody, hn, hOpen, hHead, hVal]

/-- Every event emitted by the remote pipeline satisfies `P` provided `P`
holds of each event shape the pipeline can emit. -/
theorem extract_injrepurl_all (P : Event → Bool) (henv : HttpEnv)
    (penv : PdfEnv) (fp : String) (ah ch : Geom) (ao co : Option Geom)
    (kw : List (String × String))
    (hGet : ∀ h, P (.httpGet fp h true 5 60) = true)
    (hCreate : P .tempCreate = true)
    (hDelete : P .tempDelete = true)
    (hOpen : P .pdfOpen = true)
    (hHead : ∀ a c, P (.tabulaCall .tmpFile .headOnly a c true) = true)
    (hVal : P .validateHeadersCall = true)
    (hCont : ∀ lo hi a c,
      P (.tabulaCall .tmpFile (.range lo hi) a c false) = true) :
    (extract_injrepurl henv penv fp ah ch ao co kw).2.all P = true := by
  obtain ⟨t⟩ := henv
  have hbody := injrepBody_all P penv .tmpFile ah ch ao co hOpen hHead hVal
    hCont
  rcases t with c | s
  · simp [extract_injrepurl, validate_injrepurl, hGet]
  · by_cases hs : raiseForStatusRaises s
    · simp [extract_injrepurl, validate_injrepurl, hs, hGet]
    · rcases hsb : penv.streamBody with m | u
      · simp [extract_injrepurl, validate_injrepurl, hs, hsb, hGet, hCreate]
      · rcases hb : injrepBody penv .tmpFile ah ch ao co with ⟨r, bevs⟩
        rw [hb] at hbody
        simp [extract_injrepurl, validate_injrepurl, hs, hsb, hb, hGet,
          hCreate, hDelete, hVal] at hbody ⊢
        exact hbody

/-- Every event emitted by the local pipeline satisfies `P` provided `P`
holds of each event shape the pipeline can emit. -/
theorem extract_injreplocal_all (P : Event → Bool) (lenv : LocalEnv)
    (fp : String) (ah ch : Geom) (ao co : Option Geom)
    (hProbe : P (.pagectProbe fp) = true)
    (hHead : ∀ a c,
      P (.tabulaCall (.callerFile fp) .headOnly a c true) = true)
    (hVal : P .validateHeadersCall = true)
    (hCont : ∀ lo hi a c,
      P (.tabulaCall (.callerFile fp) (.range lo hi) a c false) = true) :
    (extract_injreplocal lenv fp ah ch ao co).2.all P = true := by
  obtain ⟨pg, th, tOth, ho, cc⟩ := lenv
  rcases pg with e | n
  · simp [extract_injreplocal, hProbe]
  · rcases th with m | l
    · simp [extract_injreplocal, hProbe, hHead]
    · rcases l with _ | ⟨f, fs⟩
      · simp [extract_injreplocal, hProbe, hHead]
      · rcases ho with _ | _
        · simp [extract_injreplocal, hProbe, hHead, hVal]
        · by_cases hn : 2 ≤ n
          · rcases tOth with m | l2
            · simp [extract_injreplocal, hn, hProbe, hHead, hVal, hCont]
            · rcases cc with _ | _ <;>
                simp [extract_injreplocal, hn, hProbe, hHead, hVal, hCont]
          · rcases cc with _ | _ <;>
              simp [extract_injreplocal, hn, hProbe, hHead, hVal]

/-- The retry loop issues at most `budget + 1` further requests. -/
theorem retryLoop_attempts_le (t : Nat → Nat) (cfg : RetryConfig)
    (m : String) (b : Nat) :
    ∀ a, (retryLoop t cfg m b a).1 ≤ a + b + 1 := by
  induction b with
  | zero =>
    intro a
    unfold retryLoop
    dsimp only
    split
    · omega
    · omega
  | succ b ih =>
    intro a
    unfold retryLoop
    dsimp only
    split
    · exact le_trans (ih (a + 1)) (by omega)
    · omega

/-- The session's adapter registry, computed. -/
theorem sessionAdapters_eq :
    sessionAdapters = [("http://", zeroRetries), ("https://", codeRetries)] :=
  rfl

/-- In a remote-pipeline trace either no continuation extraction happens at
all, or header validation succeeded and the trace has the validation call at
index 4 followed by exactly one continuation call, with the resolved
continuation geometry, at index 5. -/
theorem extract_injrepurl_cont_shape (henv : HttpEnv) (penv : PdfEnv)
    (fp : String) (ah ch : Geom) (ao co : Option Geom)
    (kw : List (String × String)) :
    (contGeoms (extract_injrepurl henv penv fp ah ch ao co kw).2 = [] ∧
      firstIdx isContCall (extract_injrepurl henv penv fp ah ch ao co kw).2 =
        none) ∨
    (penv.headersOk = true ∧
      contGeoms (extract_injrepurl henv penv fp ah ch ao co kw).2 =
        [resolveContGeom ah ch ao co] ∧
      firstIdx isValidateCall
        (extract_injrepurl henv penv fp ah ch ao co kw).2 = some 4 ∧
      firstIdx isContCall (extract_injrepurl henv penv fp ah ch ao co kw).2 =
        some 5) := by
  obtain ⟨t⟩ := henv
  obtain ⟨sb, pr, th, tOth, ho, cc⟩ := penv
  rcases t with c | s
  · exact Or.inl ⟨rfl, rfl⟩
  · by_cases hs : raiseForStatusRaises s
    · left
      constructor <;>
        simp [extract_injrepurl, validate_injrepurl, hs, contGeoms, firstIdx,
          isContCall]
    · rcases sb with m2 | u
      · left
        constructor <;>
          simp [extract_injrepurl, validate_injrepurl, hs, contGeoms,
            firstIdx, isContCall]
      · rcases pr with m | n
        · left
          constructor <;>
            simp [extract_injrepurl, validate_injrepurl, injrepBody, hs,
              contGeoms, firstIdx, isContCall]
        · rcases th with m | l
          · left
            constructor <;>
              simp [extract_injrepurl, validate_injrepurl, injrepBody, hs,
                contGeoms, firstIdx, isContCall]
          · rcases l with _ | ⟨f, fs⟩
            · left
              constructor <;>
                simp [extract_injrepurl, validate_injrepurl, injrepBody, hs,
                  contGeoms, firstIdx, isContCall]
            · rcases ho with _ | _
              · left
                constructor <;>
                  simp [extract_injrepurl, validate_injrepurl, injrepBody, hs,
                    contGeoms, firstIdx, isContCall, isValidateCall]
              · by_cases hn : 2 ≤ n
                · right
                  rcases tOth with m | l2
                  · refine ⟨rfl, ?_, ?_, ?_⟩ <;>
                      simp [extract_injrepurl, validate_injrepurl, injrepBody,
                        hs, hn, contGeoms, firstIdx, isContCall, isValidateCall]
                  · rcases cc with _ | _ <;>
                      (refine ⟨rfl, ?_, ?_, ?_⟩ <;>
                        simp [extract_injrepurl, validate_injrepurl, injrepBody,
                          hs, hn, contGeoms, firstIdx, isContCall,
                          isValidateCall])
                · left
                  rcases cc with _ | _ <;>
                    (constructor <;>
                      simp [extract_injrepurl, validate_injrepurl, injrepBody,
                        hs, hn, contGeoms, firstIdx, isContCall,
                        isValidateCall])

/-- In a local-pipeline trace either no continuation extraction happens at
all, or header validation succeeded and the trace has the validation call at
index 2 followed by exactly one continuation call, with the resolved
continuation geometry, at index 3. -/
theorem extract_injreplocal_cont_shape (lenv : LocalEnv) (fp : String)
    (ah ch : Geom) (ao co : Option Geom) :
    (contGeoms (extract_injreplocal lenv fp ah ch ao co).2 = [] ∧
      firstIdx isContCall (extract_injreplocal lenv fp ah ch ao co).2 =
        none) ∨
    (lenv.headersOk = true ∧
      contGeoms (extract_injreplocal lenv fp ah ch ao co).2 =
        [resolveContGeom ah ch ao co] ∧
      firstIdx isValidateCall (extract_injreplocal lenv fp ah ch ao co).2 =
        some 2 ∧
      firstIdx isContCall (extract_injreplocal lenv fp ah ch ao co).2 =
        some 3) := by
  obtain ⟨pg, th, tOth, ho, cc⟩ := lenv
  rcases pg with e | n
  · exact Or.inl ⟨rfl, rfl⟩
  · rcases th with m | l
    · left
      constructor <;>
        simp [extract_injreplocal, contGeoms, firstIdx, isContCall]
    · rcases l with _ | ⟨f, fs⟩
      · left
        constructor <;>
          simp [extract_injreplocal, contGeoms, firstIdx, isContCall]
      · rcases ho with _ | _
        · left
          constructor <;>
            simp [extract_injreplocal, contGeoms, firstIdx, isContCall,
              isValidateCall]
        · by_cases hn : 2 ≤ n
          · right
            rcases tOth with m | l2
            · refine ⟨rfl, ?_, ?_, ?_⟩ <;>
                simp [extract_injreplocal, hn, contGeoms, firstIdx,
                  isContCall, isValidateCall]
            · rcases cc with _ | _ <;>
                (refine ⟨rfl, ?_, ?_, ?_⟩ <;>
                  simp [extract_injreplocal, hn, contGeoms, firstIdx,
                    isContCall, isValidateCall])
          · left
            rcases cc with _ | _ <;>
              (constructor <;>
                simp [extract_injreplocal, hn, contGeoms, firstIdx,
                  isContCall, isValidateCall])

/-! ## Claim theorems -/

/-- C1: the code violates the claimed cleanup guarantee.  When the GET
succeeds but the streamed download raises after the temporary file is created
(lines 70–74 run before the `try`/`finally` at lines 76–119), the invocation
raises with the temporary file still present on disk; on every path where the
streaming completes and the `try` block is entered, the temporary file is
deleted and, it having been created, the deletion is the last externally
visible action. -/
theorem extract_injrepurl_temp_leak :
    tempAfter (extract_injrepurl okHttp stallPdf "https://x/ir.pdf" [1] [2]
      none none []).2 = true ∧
    (extract_injrepurl okHttp stallPdf "https://x/ir.pdf" [1] [2] none none
      []).1 = .error (.streamError "connection stalled mid-body") ∧
    ∀ (henv : HttpEnv) (penv : PdfEnv) (fp : String) (ah ch : Geom)
      (ao co : Option Geom) (kw : List (String × String)),
      penv.streamBody = .ok () →
      tempAfter (extract_injrepurl henv penv fp ah ch ao co kw).2 = false ∧
      (Event.tempCreate ∈ (extract_injrepurl henv penv fp ah ch ao co kw).2 →
        (extract_injrepurl henv penv fp ah ch ao co kw).2.getLast? =
          some Event.tempDelete) := by
  refine ⟨rfl, rfl, ?_⟩
  intro henv penv fp ah ch ao co kw hsb
  obtain ⟨t⟩ := henv
  rcases t with c | s
  · refine ⟨rfl, ?_⟩
    intro hmem
    simp [extract_injrepurl, validate_injrepurl] at hmem
  · by_cases hs : raiseForStatusRaises s
    · refine ⟨?_, ?_⟩
      · simp [extract_injrepurl, validate_injrepurl, hs, tempAfter, tempStep]
      · intro hmem
        simp [extract_injrepurl, validate_injrepurl, hs] at hmem
    · rcases hb : injrepBody penv .tmpFile ah ch ao co with ⟨r, bevs⟩
      have htr : (extract_injrepurl ⟨.resp s⟩ penv fp ah ch ao co kw).2 =
          ([Event.httpGet fp (dictUpdate defaultHeaders kw) true 5 60] ++
            [Event.tempCreate] ++ bevs) ++ [Event.tempDelete] := by
        simp [extract_injrepurl, validate_injrepurl, hs, hsb, hb]
      rw [htr]
      constructor
      · exact foldl_tempStep_delete _ _
      · intro _
        exact List.getLast?_concat _

/-- Witness for C1: with successful collaborators (the streaming included) on
a two-page document the temporary file is absent afterwards and the last
action of the invocation is its deletion. -/
theorem extract_injrepurl_temp_leak_witness :
    tempAfter (extract_injrepurl okHttp (okPdf 2) "https://x/ir.pdf" [1] [2]
      none none []).2 = false ∧
    (extract_injrepurl okHttp (okPdf 2) "https://x/ir.pdf" [1] [2] none none
      []).2.getLast? = some Event.tempDelete := by
  have h := extract_injrepurl_temp_leak.2.2 okHttp (okPdf 2)
    "https://x/ir.pdf" [1] [2] none none [] rfl
  exact ⟨h.1, h.2 (by decide)⟩

/-- C2 counterexample: under the code's `Retry` configuration (`total=5`), a
transport that answers 503 on every attempt is asked six times before the
retry budget is exhausted — the invocation fails after 6 attempts, not 5. -/
theorem retry_all503_six_requests :
    (retryRun (fun _ => 503) codeRetries "GET").1 = 6 ∧
    ¬(retryRun (fun _ => 503) codeRetries "GET").1 = 5 := by
  decide

/-- C2 (amended): the HTTP GET is governed by a retry policy of 5 retries
after the initial request (at most 6 attempts in total) with exponential
backoff factor 1.5, restricted to the GET method and to statuses
{429, 500, 502, 503, 504}; a transport returning 503 on every attempt causes
a retrieval failure after exactly 6 attempts; a non-GET request or a non-listed
status is never retried at this layer. -/
theorem retry_policy_budget :
    codeRetries.total = 5 ∧
    codeRetries.backoff_factor = 3 / 2 ∧
    codeRetries.status_forcelist = [429, 500, 502, 503, 504] ∧
    codeRetries.allowed_methods = ["GET"] ∧
    retryRun (fun _ => 503) codeRetries "GET" = (6, none) ∧
    retryRun (fun _ => 503) codeRetries "POST" = (1, some 503) ∧
    retryRun (fun _ => 200) codeRetries "GET" = (1, some 200) ∧
    ∀ t : Nat → Nat, (retryRun t codeRetries "GET").1 ≤ 6 := by
  refine ⟨rfl, rfl, rfl, rfl, rfl, rfl, rfl, ?_⟩
  intro t
  have h := retryLoop_attempts_le t codeRetries "GET" 5 0
  simpa [retryRun, codeRetries] using h

/-- C9: the retrying adapter is mounted only for the `https://` scheme, so a
URL that does not start with `https://` is served by an adapter with zero
retries (a single attempt at the adapter level) — or by no adapter at all —
while `https://` URLs get the 5-retry policy. -/
theorem non_https_single_attempt (url : String)
    (h : strStarts url "https://" = false) :
    (∀ cfg, get_adapter sessionAdapters url = some cfg → cfg.total = 0) ∧
    (strStarts url "http://" = true →
      get_adapter sessionAdapters url = some zeroRetries) ∧
    get_adapter sessionAdapters "https://ak-static.cms.nba.com/x.pdf" =
      some codeRetries := by
  refine ⟨?_, ?_, rfl⟩
  · intro cfg hc
    by_cases h2 : strStarts url "http://"
    · simp [get_adapter, sessionAdapters_eq, longestMatch, List.filter_cons,
        h, h2] at hc
      simp [← hc, zeroRetries]
    · simp [get_adapter, sessionAdapters_eq, longestMatch, List.filter_cons,
        h, h2] at hc
  · intro h2
    simp [get_adapter, sessionAdapters_eq, longestMatch, List.filter_cons,
      h, h2]

/-- Witness for C9 at the concrete URL `http://example.com/ir.pdf`: the
adapter serving it carries zero retries. -/
theorem non_https_single_attempt_witness :
    get_adapter sessionAdapters "http://example.com/ir.pdf" =
      some zeroRetries :=
  (non_https_single_attempt "http://example.com/ir.pdf" (by decide)).2.1
    (by decide)

/-- C3: in both entry operations and under every collaborator behaviour,
header-schema validation of the first header-page fragment happens strictly
before any continuation-page extraction, and if validation fails no
continuation-page extraction is ever invoked. -/
theorem validation_before_continuation (henv : HttpEnv) (penv : PdfEnv)
    (lenv : LocalEnv) (fp lp : String) (ah ch : Geom) (ao co : Option Geom)
    (kw : List (String × String)) :
    FirstAfter isValidateCall isContCall
      (extract_injrepurl henv penv fp ah ch ao co kw).2 ∧
    FirstAfter isValidateCall isContCall
      (extract_injreplocal lenv lp ah ch ao co).2 ∧
    (penv.headersOk = false →
      firstIdx isContCall (extract_injrepurl henv penv fp ah ch ao co kw).2 =
        none) ∧
    (lenv.headersOk = false →
      firstIdx isContCall (extract_injreplocal lenv lp ah ch ao co).2 =
        none) := by
  have hu := extract_injrepurl_cont_shape henv penv fp ah ch ao co kw
  have hl := extract_injreplocal_cont_shape lenv lp ah ch ao co
  refine ⟨?_, ?_, ?_, ?_⟩
  · rcases hu with ⟨_, hnone⟩ | ⟨_, _, hv, hc⟩
    · intro j hj
      rw [hnone] at hj
      cases hj
    · intro j hj
      rw [hc] at hj
      obtain rfl : (5 : Nat) = j := Option.some.inj hj
      exact ⟨4, hv, by omega⟩
  · rcases hl with ⟨_, hnone⟩ | ⟨_, _, hv, hc⟩
    · intro j hj
      rw [hnone] at hj
      cases hj
    · intro j hj
      rw [hc] at hj
      obtain rfl : (3 : Nat) = j := Option.some.inj hj
      exact ⟨2, hv, by omega⟩
  · intro hfail
    rcases hu with ⟨_, hnone⟩ | ⟨hok, _, _, _⟩
    · exact hnone
    · rw [hfail] at hok
      cases hok
  · intro hfail
    rcases hl with ⟨_, hnone⟩ | ⟨hok, _, _, _⟩
    · exact hnone
    · rw [hfail] at hok
      cases hok

/-- C5: in both entry operations, the geometry of every continuation-page
extraction call is the resolved continuation geometry — the caller's value
when supplied, the header-page geometry otherwise — and the resolution is
total, so a continuation call never carries a null geometry. -/
theorem continuation_geometry_never_null (henv : HttpEnv) (penv : PdfEnv)
    (lenv : LocalEnv) (fp lp : String) (ah ch : Geom) (ao co : Option Geom)
    (kw : List (String × String)) :
    (∀ pr ∈ contGeoms (extract_injrepurl henv penv fp ah ch ao co kw).2,
      pr = resolveContGeom ah ch ao co) ∧
    (∀ pr ∈ contGeoms (extract_injreplocal lenv lp ah ch ao co).2,
      pr = resolveContGeom ah ch ao co) ∧
    (ao = none → (resolveContGeom ah ch ao co).1 = ah) ∧
    (co = none → (resolveContGeom ah ch ao co).2 = ch) := by
  refine ⟨?_, ?_, ?_, ?_⟩
  · intro pr hpr
    rcases extract_injrepurl_cont_shape henv penv fp ah ch ao co kw with
      ⟨hg, _⟩ | ⟨_, hg, _, _⟩
    · rw [hg] at hpr
      cases hpr
    · rw [hg] at hpr
      simpa using hpr
  · intro pr hpr
    rcases extract_injreplocal_cont_shape lenv lp ah ch ao co with
      ⟨hg, _⟩ | ⟨_, hg, _, _⟩
    · rw [hg] at hpr
      cases hpr
    · rw [hg] at hpr
      simpa using hpr
  · intro h
    subst h
    rfl
  · intro h
    subst h
    rfl

/-- Witness for C3: with all-successful collaborators on a two-page document
validation precedes the continuation calls, and with failing header
validation no continuation call appears in either pipeline's trace. -/
theorem validation_before_continuation_witness :
    (FirstAfter isValidateCall isContCall
      (extract_injrepurl okHttp (okPdf 2) "https://x/ir.pdf" [1] [2] none
        none []).2 ∧
    FirstAfter isValidateCall isContCall
      (extract_injreplocal (okLocal 2) "loc.pdf" [1] [2] none none).2) ∧
    firstIdx isContCall
      (extract_injrepurl okHttp badHeadPdf "https://x/ir.pdf" [1] [2] none
        none []).2 = none ∧
    firstIdx isContCall
      (extract_injreplocal badHeadLocal "loc.pdf" [1] [2] none none).2 =
      none :=
  ⟨⟨(validation_before_continuation okHttp (okPdf 2) (okLocal 2)
      "https://x/ir.pdf" "loc.pdf" [1] [2] none none []).1,
    (validation_before_continuation okHttp (okPdf 2) (okLocal 2)
      "https://x/ir.pdf" "loc.pdf" [1] [2] none none []).2.1⟩,
   (validation_before_continuation okHttp badHeadPdf badHeadLocal
      "https://x/ir.pdf" "loc.pdf" [1] [2] none none []).2.2.1 rfl,
   (validation_before_continuation okHttp badHeadPdf badHeadLocal
      "https://x/ir.pdf" "loc.pdf" [1] [2] none none []).2.2.2 rfl⟩

/-- Witness for C5 on a two-page document with unsupplied continuation
geometry: the single continuation call carries the header geometry. -/
theorem continuation_geometry_never_null_witness :
    ([1], [2]) = resolveContGeom [1] [2] none none :=
  (continuation_geometry_never_null okHttp (okPdf 2) (okLocal 2)
      "https://x/ir.pdf" "loc.pdf" [1] [2] none none []).1 ([1], [2])
    (by decide)

/-- C4: on a document whose retrieval, header extraction, validation and
cleaning succeed, continuation-page extraction is invoked if and only if the
page count is at least 2, the page selector is then `2-N`, and a single-page
document yields the header fragments with an empty continuation list, with no
error. -/
theorem continuation_iff_multipage (henv : HttpEnv) (penv : PdfEnv)
    (lenv : LocalEnv) (s n m : Nat) (f : Frag) (fs : List Frag) (f2 : Frag)
    (fs2 : List Frag) (fp lp : String) (ah ch : Geom) (ao co : Option Geom)
    (kw : List (String × String))
    (ht : henv.transport = .resp s) (hs : raiseForStatusRaises s = false)
    (hsb : penv.streamBody = .ok ()) (hpr : penv.pdfRead = .ok n)
    (hth : penv.tabulaHead = .ok (f :: fs))
    (hho : penv.headersOk = true) (hcc : penv.concatCleanOk = true)
    (hpg : lenv.pagect = .ok m) (hth2 : lenv.tabulaHead = .ok (f2 :: fs2))
    (hho2 : lenv.headersOk = true) (hcc2 : lenv.concatCleanOk = true) :
    ((extract_injrepurl henv penv fp ah ch ao co kw).2.any isContCall =
        true ↔ 2 ≤ n) ∧
    contSelectors (extract_injrepurl henv penv fp ah ch ao co kw).2 =
      (if 2 ≤ n then [PageSel.range 2 n] else []) ∧
    (n = 1 →
      (extract_injrepurl henv penv fp ah ch ao co kw).1 =
        .ok ⟨f :: fs, []⟩) ∧
    ((extract_injreplocal lenv lp ah ch ao co).2.any isContCall = true ↔
      2 ≤ m) ∧
    contSelectors (extract_injreplocal lenv lp ah ch ao co).2 =
      (if 2 ≤ m then [PageSel.range 2 m] else []) ∧
    (m = 1 →
      (extract_injreplocal lenv lp ah ch ao co).1 = .ok ⟨f2 :: fs2, []⟩) := by
  obtain ⟨t⟩ := henv
  obtain ⟨sb, pr, th, tOth, ho, cc⟩ := penv
  obtain ⟨pg, th2, tOth2, ho2, cc2⟩ := lenv
  simp only at ht hsb hpr hth hho hcc hpg hth2 hho2 hcc2
  subst ht hsb hpr hth hho hcc hpg hth2 hho2 hcc2
  refine ⟨?_, ?_, ?_, ?_, ?_, ?_⟩
  · by_cases hn : 2 ≤ n
    · rcases tOth with m1 | l2 <;>
        simp [extract_injrepurl, validate_injrepurl, injrepBody, hs, hn,
          isContCall]
    · simp [extract_injrepurl, validate_injrepurl, injrepBody, hs, hn,
        isContCall]
  · by_cases hn : 2 ≤ n
    · rcases tOth with m1 | l2 <;>
        simp [extract_injrepurl, validate_injrepurl, injrepBody, hs, hn,
          contSelectors]
    · simp [extract_injrepurl, validate_injrepurl, injrepBody, hs, hn,
        contSelectors]
  · intro hone
    subst hone
    simp [extract_injrepurl, validate_injrepurl, injrepBody, hs]
  · by_cases hn : 2 ≤ m
    · rcases tOth2 with m1 | l2 <;>
        simp [extract_injreplocal, hn, isContCall]
    · simp [extract_injreplocal, hn, isContCall]
  · by_cases hn : 2 ≤ m
    · rcases tOth2 with m1 | l2 <;>
        simp [extract_injreplocal, hn, contSelectors]
    · simp [extract_injreplocal, hn, contSelectors]
  · intro hone
    subst hone
    simp [extract_injreplocal]

/-- Witness for C4 on single-page documents with all-successful
collaborators: both pipelines return the header fragments and an empty
continuation list. -/
theorem continuation_iff_multipage_witness :
    (extract_injrepurl okHttp (okPdf 1) "https://x/ir.pdf" [1] [2] none none
        []).1 = .ok ⟨[0], []⟩ ∧
    (extract_injreplocal (okLocal 1) "loc.pdf" [1] [2] none none).1 =
      .ok ⟨[0], []⟩ := by
  have h := continuation_iff_multipage okHttp (okPdf 1) (okLocal 1) 200 1 1
    0 [] 0 [] "https://x/ir.pdf" "loc.pdf" [1] [2] none none [] rfl rfl rfl
    rfl rfl rfl rfl rfl rfl rfl rfl
  exact ⟨h.2.2.1 rfl, h.2.2.2.2.2 rfl⟩

/-- C6: in both entry operations and under every collaborator behaviour,
every header-page extraction call requests header inference enabled and every
continuation-page extraction call requests header inference disabled; with
successful collaborators on a two-page document both kinds of call are
actually issued, with those flags. -/
theorem header_inference_discipline (henv : HttpEnv) (penv : PdfEnv)
    (lenv : LocalEnv) (fp lp : String) (ah ch : Geom) (ao co : Option Geom)
    (kw : List (String × String)) :
    (extract_injrepurl henv penv fp ah ch ao co kw).2.all headerInferenceOk =
      true ∧
    (extract_injreplocal lenv lp ah ch ao co).2.all headerInferenceOk =
      true ∧
    Event.tabulaCall .tmpFile .headOnly ah ch true ∈
      (extract_injrepurl okHttp (okPdf 2) fp ah ch none none kw).2 ∧
    Event.tabulaCall .tmpFile (.range 2 2) ah ch false ∈
      (extract_injrepurl okHttp (okPdf 2) fp ah ch none none kw).2 ∧
    Event.tabulaCall (.callerFile lp) .headOnly ah ch true ∈
      (extract_injreplocal (okLocal 2) lp ah ch none none).2 ∧
    Event.tabulaCall (.callerFile lp) (.range 2 2) ah ch false ∈
      (extract_injreplocal (okLocal 2) lp ah ch none none).2 := by
  refine ⟨?_, ?_, ?_, ?_, ?_, ?_⟩
  · exact extract_injrepurl_all headerInferenceOk henv penv fp ah ch ao co kw
      (fun _ => rfl) rfl rfl rfl (fun _ _ => rfl) rfl (fun _ _ _ _ => rfl)
  · exact extract_injreplocal_all headerInferenceOk lenv lp ah ch ao co rfl
      (fun _ _ => rfl) rfl (fun _ _ _ _ => rfl)
  · simp [extract_injrepurl, validate_injrepurl, injrepBody, okHttp, okPdf,
      raiseForStatusRaises, resolveContGeom]
  · simp [extract_injrepurl, validate_injrepurl, injrepBody, okHttp, okPdf,
      raiseForStatusRaises, resolveContGeom]
  · simp [extract_injreplocal, okLocal, resolveContGeom]
  · simp [extract_injreplocal, okLocal, resolveContGeom]

/-- Setting a key makes lookup of that key return the new value. -/
theorem lookupKey_setItem_self (d : List (String × String)) (k v : String) :
    lookupKey (setItem d k v) k = some v := by
  induction d with
  | nil => simp [setItem, lookupKey]
  | cons p ps ih =>
    by_cases h : p.1 = k
    · simp [setItem, h, lookupKey]
    · simp [setItem, h, lookupKey, ih]

/-- Setting a key leaves lookup of any other key unchanged. -/
theorem lookupKey_setItem_ne (d : List (String × String)) (k v k' : String)
    (h : k' ≠ k) : lookupKey (setItem d k v) k' = lookupKey d k' := by
  induction d with
  | nil => simp [setItem, lookupKey, Ne.symm h]
  | cons p ps ih =>
    by_cases hp : p.1 = k
    · subst hp
      simp [setItem, lookupKey, Ne.symm h]
    · simp [setItem, hp, lookupKey, ih]

/-- Lookup of a key absent from the list returns nothing. -/
theorem lookupKey_eq_none (l : List (String × String)) (k : String)
    (h : k ∉ l.map Prod.fst) : lookupKey l k = none := by
  induction l with
  | nil => rfl
  | cons p ps ih =>
    rw [List.map_cons, List.mem_cons] at h
    push_neg at h
    simp [lookupKey, Ne.symm h.1, ih h.2]

/-- Unfolding lemma: `dict.update` folds `setItem` over the overrides one at a time. -/
theorem dictUpdate_cons (base : List (String × String))
    (q : String × String) (ov : List (String × String)) :
    dictUpdate base (q :: ov) = dictUpdate (setItem base q.1 q.2) ov := rfl

/-- The lookup semantics of `dict.update`: an overridden key takes the
override's value, every other key keeps the base value. -/
theorem lookupKey_dictUpdate (ov : List (String × String)) :
    ∀ base k, KeysNodup ov →
      lookupKey (dictUpdate base ov) k =
        (lookupKey ov k).orElse (fun _ => lookupKey base k) := by
  induction ov with
  | nil =>
    intro base k _
    simp [dictUpdate, lookupKey, Option.orElse]
  | cons q ov ih =>
    intro base k hnd
    have hnd' : KeysNodup ov := by
      have := hnd
      rw [KeysNodup, List.map_cons, List.nodup_cons] at this
      exact this.2
    have hq : q.1 ∉ ov.map Prod.fst := by
      have := hnd
      rw [KeysNodup, List.map_cons, List.nodup_cons] at this
      exact this.1
    rw [dictUpdate_cons, ih (setItem base q.1 q.2) k hnd']
    by_cases hk : k = q.1
    · subst hk
      rw [lookupKey_eq_none ov q.1 hq, lookupKey_setItem_self]
      simp [lookupKey, Option.orElse]
    · rw [lookupKey_setItem_ne base q.1 q.2 k hk]
      have : lookupKey (q :: ov) k = lookupKey ov k := by
        simp [lookupKey, Ne.symm hk]
      rw [this]

/-- C7 counterexample: a final response status of 304 is outside 2xx, yet
`raise_for_status` raises only for 4xx/5xx, so `validate_injrepurl` returns
the response instead of raising a retrieval error. -/
theorem validate_injrepurl_304_no_error :
    is2xx 304 = false ∧
    (validate_injrepurl ⟨.resp 304⟩ "https://cdn.nba.com/ir.pdf" []).1 =
      .ok 304 :=
  ⟨rfl, rfl⟩

/-- C7 (amended): the remote request is a single GET with connect timeout 5
and read timeout 60, streamed, carrying the browser-identifying defaults
updated by the caller's headers (overriding on key collision, extending
otherwise); a transport failure raises a retrieval error with the original
cause and the location, and a 4xx/5xx final status — exactly the statuses
`raise_for_status` rejects — raises a retrieval error with the status and the
location, while any other status is returned. -/
theorem validate_injrepurl_request_contract (fp : String)
    (kw : List (String × String)) (cause : String) (s : Nat) :
    validate_injrepurl ⟨.exn cause⟩ fp kw =
      (.urlError fp (.transport cause),
       [.httpGet fp (dictUpdate defaultHeaders kw) true 5 60]) ∧
    (raiseForStatusRaises s = true →
      validate_injrepurl ⟨.resp s⟩ fp kw =
        (.urlError fp (.httpStatus s),
         [.httpGet fp (dictUpdate defaultHeaders kw) true 5 60])) ∧
    (raiseForStatusRaises s = false →
      validate_injrepurl ⟨.resp s⟩ fp kw =
        (.ok s, [.httpGet fp (dictUpdate defaultHeaders kw) true 5 60])) ∧
    (raiseForStatusRaises s = true ↔ 400 ≤ s ∧ s < 600) ∧
    lookupKey defaultHeaders "Accept" = some "application/pdf" ∧
    (lookupKey defaultHeaders "User-Agent").isSome = true ∧
    (∀ k, KeysNodup kw →
      lookupKey (dictUpdate defaultHeaders kw) k =
        (lookupKey kw k).orElse (fun _ => lookupKey defaultHeaders k)) := by
  refine ⟨rfl, ?_, ?_, ?_, ?_, ?_, ?_⟩
  · intro h
    simp [validate_injrepurl, h]
  · intro h
    simp [validate_injrepurl, h]
  · simp [raiseForStatusRaises]
  · rfl
  · rfl
  · intro k hnd
    exact lookupKey_dictUpdate kw defaultHeaders k hnd

/-- Witness for C7 (amended) at status 503 with a caller-supplied Accept
override: the invocation raises a retrieval error carrying the location and
the status, and the override wins over the default. -/
theorem validate_injrepurl_request_contract_witness :
    (validate_injrepurl ⟨.resp 503⟩ "https://cdn.nba.com/ir.pdf"
        [("Accept", "text/html")]).1 =
      .urlError "https://cdn.nba.com/ir.pdf" (.httpStatus 503) ∧
    lookupKey (dictUpdate defaultHeaders [("Accept", "text/html")]) "Accept" =
      some "text/html" := by
  have h := validate_injrepurl_request_contract "https://cdn.nba.com/ir.pdf"
    [("Accept", "text/html")] "unused" 503
  constructor
  · rw [h.2.1 (by decide)]
  · rw [h.2.2.2.2.2.2 "Accept" (by simp [KeysNodup])]
    rfl

/-- C8: in local mode a missing-file or permission failure of the page-count
probe raises `LocalRetrievalError` carrying the requested path and the
underlying cause, with no other action taken; and under every collaborator
behaviour the local pipeline creates no temporary file and only ever reads
the caller's file at the requested path. -/
theorem extract_injreplocal_retrieval_error (lenv : LocalEnv) (fp : String)
    (ah ch : Geom) (ao co : Option Geom) (e : FsErr)
    (h : lenv.pagect = .error e) :
    extract_injreplocal lenv fp ah ch ao co =
      (.error (.localError fp e), [.pagectProbe fp]) ∧
    ∀ lenv2 : LocalEnv,
      (extract_injreplocal lenv2 fp ah ch ao co).2.all (readOnlyOnPath fp) =
        true := by
  constructor
  · obtain ⟨pg, th, tOth, ho, cc⟩ := lenv
    simp only at h
    subst h
    rfl
  · intro lenv2
    refine extract_injreplocal_all (readOnlyOnPath fp) lenv2 fp ah ch ao co
      ?_ ?_ rfl ?_
    · simp [readOnlyOnPath]
    · intro a c
      simp [readOnlyOnPath]
    · intro lo hi a c
      simp [readOnlyOnPath]

/-- Witness for C8: a missing file at a concrete path yields exactly the
local retrieval error carrying that path and cause, after only the probe. -/
theorem extract_injreplocal_retrieval_error_witness :
    extract_injreplocal missingLocal "report.pdf" [1] [2] none none =
      (.error (.localError "report.pdf" (.fileNotFound "no such file")),
       [.pagectProbe "report.pdf"]) :=
  (extract_injreplocal_retrieval_error missingLocal "report.pdf" [1] [2]
    none none (.fileNotFound "no such file") rfl).1

/-- C10: the two continuation-geometry components default independently: a
caller supplying only the continuation area still gets the header columns,
and a caller supplying only the continuation columns still gets the header
area — both in the resolution function and in the continuation call actually
issued by each pipeline on a two-page document. -/
theorem independent_geometry_defaults (fp lp : String)
    (ah ch ao co : Geom) (kw : List (String × String)) :
    resolveContGeom ah ch (some ao) none = (ao, ch) ∧
    resolveContGeom ah ch none (some co) = (ah, co) ∧
    contGeoms (extract_injrepurl okHttp (okPdf 2) fp ah ch (some ao) none
        kw).2 = [(ao, ch)] ∧
    contGeoms (extract_injrepurl okHttp (okPdf 2) fp ah ch none (some co)
        kw).2 = [(ah, co)] ∧
    contGeoms (extract_injreplocal (okLocal 2) lp ah ch (some ao) none).2 =
      [(ao, ch)] ∧
    contGeoms (extract_injreplocal (okLocal 2) lp ah ch none (some co)).2 =
      [(ah, co)] := by
  refine ⟨rfl, rfl, ?_, ?_, ?_, ?_⟩ <;>
    simp [extract_injrepurl, validate_injrepurl, injrepBody,
      extract_injreplocal, okHttp, okPdf, okLocal, raiseForStatusRaises,
      resolveContGeom, contGeoms]

end NBAInjuries
